import Mathlib

/-!
Verification of the codespring-notes persistence and action layer.

The development shallowly embeds the repository's data model
(`categories` and `notes` tables), the query layer
(`db/queries/categories-queries.ts`, `db/queries/notes-queries.ts`),
the server-action layer (`actions/notes-actions.ts`,
`actions/categories-actions.ts`) and the note-detail client controller
(`app/dashboard/notes/[note-id]/page-client.tsx` together with
`components/note-details/note-editor.tsx` and `note-header.tsx`).

Conventions of the embedding:
* the relational store is a `Store` value holding the rows of both tables;
* timestamps are natural numbers; `new Date()` becomes an explicit `now`
  parameter, assumed monotone with respect to stored timestamps where a
  claim needs it;
* SQL `ORDER BY` is modelled with `List.insertionSort` on the ordered
  column;
* storage-layer exceptions are modelled with `Except String`; an action
  receives the outcome of its underlying query call and produces the
  uniform `ActionResult` envelope, mirroring its try/catch structure;
* `console.log` / `console.error` and `revalidatePath` cache revalidation
  are effects outside every property considered and are elided.
-/

/-- Row of the `categories` table (`db/schema/categories-schema.ts`):
`id`, nullable `user_id` (null marks a base category), `name`, `color`,
`created_at`. -/
structure Category where
  id : String
  userId : Option String
  name : String
  color : String
  createdAt : Nat
deriving Repr, DecidableEq

/-- Row of the `notes` table (`db/schema/notes-schema.ts`): `id`,
`user_id`, `category_id` (foreign key to `categories.id` with
`onDelete: cascade`), `title`, `content`, `created_at`, `updated_at`. -/
structure Note where
  id : String
  userId : String
  categoryId : String
  title : String
  content : String
  createdAt : Nat
  updatedAt : Nat
deriving Repr, DecidableEq

/-- The relational store: the rows of the two tables. -/
structure Store where
  categories : List Category
  notes : List Note
deriving Repr, DecidableEq

/-- A `Partial<InsertNote>` update payload: every column optional.
A field left `none` is absent from the payload. -/
structure NotePatch where
  id : Option String := none
  userId : Option String := none
  categoryId : Option String := none
  title : Option String := none
  content : Option String := none
  createdAt : Option Nat := none
  updatedAt : Option Nat := none
deriving Repr, DecidableEq

/-- An `InsertNote` payload as built by `createQuickNoteAction`
(`createdAt` and `updatedAt` are left to the schema defaults). -/
structure InsertNote where
  title : String
  content : String
  categoryId : String
  userId : String
deriving Repr, DecidableEq

/-- The uniform action envelope `{ isSuccess, message, data? }` from
`types` (`ActionResult<T>`). -/
structure ActionResult (α : Type) where
  isSuccess : Bool
  message : String
  data : Option α := none
deriving Repr, DecidableEq

/-! ## Query layer -/

/-- Drizzle `orderBy` on a column: a stable sort by the given key
relation, modelling SQL `ORDER BY`. -/
def orderedBy (r : α → α → Prop) [DecidableRel r] (l : List α) : List α :=
  List.insertionSort r l

/-- `getCategoriesByUserId` (`categories-queries.ts`): rows whose
`user_id` equals the argument, ordered ascending by `created_at`. -/
def getCategoriesByUserId (st : Store) (userId : String) : List Category :=
  orderedBy (fun a b => a.createdAt ≤ b.createdAt)
    (st.categories.filter (fun c => c.userId = some userId))

/-- `getCategoriesForUserAndBase` (`categories-queries.ts`): the user's
rows ordered ascending by `created_at`, the base rows (`user_id IS NULL`)
ordered ascending by `name`, returned as `[...baseCategories,
...userCategories]`. -/
def getCategoriesForUserAndBase (st : Store) (userId : String) : List Category :=
  let userCategories :=
    orderedBy (fun a b => a.createdAt ≤ b.createdAt)
      (st.categories.filter (fun c => c.userId = some userId))
  let baseCategories :=
    orderedBy (fun a b => a.name ≤ b.name)
      (st.categories.filter (fun c => c.userId = none))
  baseCategories ++ userCategories

/-- `deleteCategory` (`categories-queries.ts`): deletes the row with the
given id, returning only its id (`undefined` when no row matched).  The
schema declares `notes.category_id ... onDelete: cascade`
(`notes-schema.ts`), so the store drops the dependent notes as well. -/
def deleteCategory (st : Store) (id : String) : Store × Option String :=
  ({ categories := st.categories.filter (fun c => c.id ≠ id),
     notes := st.notes.filter (fun n => n.categoryId ≠ id) },
   ((st.categories.filter (fun c => c.id = id)).head?).map (fun c => c.id))

/-- `getNotesByCategoryId` (`notes-queries.ts`): rows matching both
`category_id` and `user_id`, ordered descending by `updated_at`. -/
def getNotesByCategoryId (st : Store) (categoryId userId : String) : List Note :=
  orderedBy (fun a b => b.updatedAt ≤ a.updatedAt)
    (st.notes.filter (fun n => n.categoryId = categoryId ∧ n.userId = userId))

/-- `getNotesByUserId` (`notes-queries.ts`): rows matching `user_id`,
ordered descending by `updated_at`. -/
def getNotesByUserId (st : Store) (userId : String) : List Note :=
  orderedBy (fun a b => b.updatedAt ≤ a.updatedAt)
    (st.notes.filter (fun n => n.userId = userId))

/-- `getNoteById` (`notes-queries.ts`): `findFirst` on `id`. -/
def getNoteById (st : Store) (id : String) : Option Note :=
  (st.notes.filter (fun n => n.id = id)).head?

/-- The row produced by `.set({...data, updatedAt: new Date() })` in
`updateNote`: each present payload field overwrites the column, and
`updatedAt` is set to the current server time — the explicit
`updatedAt: new Date()` entry comes after the spread, so a payload's
`updatedAt` field is never consulted. -/
def applyPatch (n : Note) (data : NotePatch) (now : Nat) : Note :=
  { id := data.id.getD n.id
    userId := data.userId.getD n.userId
    categoryId := data.categoryId.getD n.categoryId
    title := data.title.getD n.title
    content := data.content.getD n.content
    createdAt := data.createdAt.getD n.createdAt
    updatedAt := now }

/-- `updateNote` (`notes-queries.ts`): `UPDATE notes SET {...data,
updatedAt: new Date()} WHERE id = id RETURNING *`; the destructured
`[updatedNote]` is the first returned row, `undefined` when none
matched. -/
def updateNote (st : Store) (id : String) (data : NotePatch) (now : Nat) :
    Store × Option Note :=
  ({ st with
      notes := st.notes.map (fun n => if n.id = id then applyPatch n data now else n) },
   ((st.notes.filter (fun n => n.id = id)).head?).map (fun n => applyPatch n data now))

/-- `deleteNote` (`notes-queries.ts`): deletes the row with the given id,
returning `{ id }` of the removed row (`undefined` when none matched). -/
def deleteNote (st : Store) (id : String) : Store × Option String :=
  ({ st with notes := st.notes.filter (fun n => n.id ≠ id) },
   ((st.notes.filter (fun n => n.id = id)).head?).map (fun n => n.id))

/-- `deleteNotes` (`notes-queries.ts`): bulk delete.  An empty id list
returns `{ count: 0 }` before reaching the `try` block, so no storage
call is issued — the third component records whether storage was
touched.  Otherwise the count of returned (removed) rows is reported. -/
def deleteNotes (st : Store) (ids : List String) : Store × Nat × Bool :=
  if ids.isEmpty then (st, 0, false)
  else
    ({ st with notes := st.notes.filter (fun n => n.id ∉ ids) },
     (st.notes.filter (fun n => n.id ∈ ids)).length, true)

/-! ## Action layer

Each action is a function of the outcome of its underlying query call
(`Except.error e` models a storage exception carrying the query layer's
re-thrown message, `Except.ok` its return value) and mirrors the
action's try/catch: the catch arm becomes the failure envelope carrying
the error's message. -/

/-- `createNoteAction` (`notes-actions.ts`). -/
def createNoteAction (outcome : Except String Note) : ActionResult Note :=
  match outcome with
  | .ok newNote =>
      { isSuccess := true, message := "Note created successfully", data := some newNote }
  | .error e => { isSuccess := false, message := e }

/-- `getNoteByIdAction` (`notes-actions.ts`): an absent row becomes the
"not found" failure envelope, not an exception. -/
def getNoteByIdAction (outcome : Except String (Option Note)) : ActionResult Note :=
  match outcome with
  | .ok none => { isSuccess := false, message := "Note not found" }
  | .ok (some note) =>
      { isSuccess := true, message := "Note retrieved successfully", data := some note }
  | .error e => { isSuccess := false, message := e }

/-- `getNotesByUserIdAction` (`notes-actions.ts`). -/
def getNotesByUserIdAction (outcome : Except String (List Note)) :
    ActionResult (List Note) :=
  match outcome with
  | .ok notes =>
      { isSuccess := true, message := "Notes retrieved successfully", data := some notes }
  | .error e => { isSuccess := false, message := e }

/-- `getNotesByCategoryIdAction` (`notes-actions.ts`): a missing
(falsy) `userId` is rejected before the query call. -/
def getNotesByCategoryIdAction (userId : String)
    (outcome : Except String (List Note)) : ActionResult (List Note) :=
  if userId = "" then
    { isSuccess := false,
      message := "User identification is required to fetch notes by category." }
  else
    match outcome with
    | .ok notes =>
        { isSuccess := true, message := "Notes for category retrieved successfully",
          data := some notes }
    | .error e => { isSuccess := false, message := e }

/-- `updateNoteAction` (`notes-actions.ts`): when the query matched no
row the destructured `updatedNote` is `undefined`, and the member access
`updatedNote.categoryId` inside the `try` block throws a `TypeError`
(message rendered here without its quotation marks), which the `catch`
arm converts to a failure envelope. -/
def updateNoteAction (outcome : Except String (Option Note)) : ActionResult Note :=
  match outcome with
  | .ok (some updatedNote) =>
      { isSuccess := true, message := "Note updated successfully",
        data := some updatedNote }
  | .ok none =>
      { isSuccess := false,
        message := "Cannot read properties of undefined (reading categoryId)" }
  | .error e => { isSuccess := false, message := e }

/-- `deleteNoteAction` (`notes-actions.ts`): whatever `deleteNote`
returns — the removed row's id or `undefined` — is attached as `data` of
a success envelope without inspection. -/
def deleteNoteAction (outcome : Except String (Option String)) : ActionResult String :=
  match outcome with
  | .ok deletedNoteInfo =>
      { isSuccess := true, message := "Note deleted successfully",
        data := deletedNoteInfo }
  | .error e => { isSuccess := false, message := e }

/-- `deleteNotesAction` (`notes-actions.ts`). -/
def deleteNotesAction (outcome : Except String Nat) : ActionResult Nat :=
  match outcome with
  | .ok count =>
      { isSuccess := true, message := toString count ++ " note(s) deleted successfully",
        data := some count }
  | .error e => { isSuccess := false, message := e }

/-- `createCategoryAction` (`categories-actions.ts`). -/
def createCategoryAction (outcome : Except String Category) : ActionResult Category :=
  match outcome with
  | .ok newCategory =>
      { isSuccess := true, message := "Category created successfully",
        data := some newCategory }
  | .error e => { isSuccess := false, message := e }

/-- `getCategoryByIdAction` (`categories-actions.ts`). -/
def getCategoryByIdAction (outcome : Except String (Option Category)) :
    ActionResult Category :=
  match outcome with
  | .ok none => { isSuccess := false, message := "Category not found" }
  | .ok (some category) =>
      { isSuccess := true, message := "Category retrieved successfully",
        data := some category }
  | .error e => { isSuccess := false, message := e }

/-- `getCategoriesByUserIdAction` (`categories-actions.ts`). -/
def getCategoriesByUserIdAction (outcome : Except String (List Category)) :
    ActionResult (List Category) :=
  match outcome with
  | .ok categories =>
      { isSuccess := true, message := "Categories retrieved successfully",
        data := some categories }
  | .error e => { isSuccess := false, message := e }

/-- `getCategoriesForUserAndBaseAction` (`categories-actions.ts`). -/
def getCategoriesForUserAndBaseAction (outcome : Except String (List Category)) :
    ActionResult (List Category) :=
  match outcome with
  | .ok categories =>
      { isSuccess := true, message := "User and base categories retrieved successfully",
        data := some categories }
  | .error e => { isSuccess := false, message := e }

/-- `updateCategoryAction` (`categories-actions.ts`): the returned row is
attached without inspection (no member access occurs, unlike
`updateNoteAction`). -/
def updateCategoryAction (outcome : Except String (Option Category)) :
    ActionResult Category :=
  match outcome with
  | .ok updatedCategory =>
      { isSuccess := true, message := "Category updated successfully",
        data := updatedCategory }
  | .error e => { isSuccess := false, message := e }

/-- `deleteCategoryAction` (`categories-actions.ts`). -/
def deleteCategoryAction (outcome : Except String (Option String)) :
    ActionResult String :=
  match outcome with
  | .ok deletedCategoryInfo =>
      { isSuccess := true, message := "Category deleted successfully",
        data := deletedCategoryInfo }
  | .error e => { isSuccess := false, message := e }

/-- The `noteData` record built by `createQuickNoteAction`
(`categories-actions.ts`): `title: title || "Untitled Note"` — a falsy
title (absent or the empty string) falls back to the default — and
`content: ""`. -/
def quickNoteData (categoryId userId : String) (title : Option String) : InsertNote :=
  { title := match title with
      | some t => if t = "" then "Untitled Note" else t
      | none => "Untitled Note"
    content := ""
    categoryId := categoryId
    userId := userId }

/-- `createQuickNoteAction` (`categories-actions.ts`): both identifier
guards run before any storage call.  The `create` argument is the
storage behaviour of the reused `createNote` query; the second component
of the result is the `InsertNote` submitted to storage (`none` when no
storage call was issued). -/
def createQuickNoteAction (categoryId userId : String) (title : Option String)
    (create : InsertNote → Except String Note) :
    ActionResult Note × Option InsertNote :=
  if userId = "" then
    ({ isSuccess := false, message := "User not authenticated." }, none)
  else if categoryId = "" then
    ({ isSuccess := false, message := "Category ID is required." }, none)
  else
    let noteData := quickNoteData categoryId userId title
    match create noteData with
    | .ok newNote =>
        ({ isSuccess := true, message := "Note created successfully and quickly!",
           data := some newNote }, some noteData)
    | .error e => ({ isSuccess := false, message := e }, some noteData)

/-! ## Detail view controller

State of `NoteDetailPageClient` (`page-client.tsx`) composed with the
state its children own: `NoteEditor` (`note-editor.tsx`) keeps
`lastSavedContent` and a pending debounce timer whose callback captured
the html to save; `NoteHeader` (`note-header.tsx`) contributes the
Escape-key revert of the title input.  `navigatedBack` records whether
`router.push('/dashboard/notes')` has run. -/
structure DetailState where
  userId : String
  note : Note
  currentTitle : String
  currentContent : String
  isSaving : Bool
  navigatedBack : Bool
  editorLastSaved : String
  pendingDebounce : Option String
deriving Repr, DecidableEq

/-- Events driving the detail controller.  `debounceFire` is the pending
editor timeout elapsing; `back` is the header's back button.  Both carry
the outcome of the `updateNoteAction` call they may issue. -/
inductive DetailEvent where
  | editContent (html : String)
  | debounceFire (outcome : Except String (Option Note))
  | editTitle (t : String)
  | escapeTitle
  | back (outcome : Except String (Option Note))

/-- JavaScript `String.prototype.trim()`: strip whitespace from both
ends, computed structurally over the character list. -/
def strTrim (s : String) : String :=
  ⟨((s.data.dropWhile Char.isWhitespace).reverse.dropWhile Char.isWhitespace).reverse⟩

/-- Whether an event is the explicit back navigation trigger. -/
def DetailEvent.isBack : DetailEvent → Bool
  | .back _ => true
  | _ => false

/-- Result of one controller step: the successor state and the payloads
of the `updateNoteAction` calls issued during the step. -/
structure StepOut where
  state : DetailState
  updateCalls : List NotePatch
deriving Repr, DecidableEq

/-- One step of the detail controller.

* `editContent html`: the Tiptap `onUpdate` handler — `onContentChange`
  propagates `html` to the parent buffer at once, and the previous
  pending save timeout is replaced by a fresh one capturing `html`
  (`note-editor.tsx` lines 91–106); no call is issued.
* `debounceFire outcome`: the timeout elapses and runs
  `debouncedSave(html)` (`note-editor.tsx` lines 49–73): nothing happens
  when `html` equals `lastSavedContent`; otherwise one
  `updateNoteAction(noteId, { content: html })` call is issued and
  `lastSavedContent` advances on success.
* `editTitle` / `escapeTitle`: the header's controlled input and its
  Escape revert to `note.title` (`note-header.tsx` lines 87–94).
* `back outcome`: `handleSaveChangesAndNavigateBack` (`page-client.tsx`
  lines 49–115), faithful to its branch order: missing `userId` returns
  at once; an empty-after-trim title is rejected; when title or content
  changed one combined `updateNoteAction(note.id, { title, content })`
  call is issued, success updating `note` and navigating, failure
  returning without navigation; with no change it navigates with no
  call. -/
def detailStep (s : DetailState) (e : DetailEvent) : StepOut :=
  match e with
  | .editContent html =>
      { state := { s with currentContent := html, pendingDebounce := some html },
        updateCalls := [] }
  | .debounceFire outcome =>
      match s.pendingDebounce with
      | none => { state := s, updateCalls := [] }
      | some html =>
          if html = s.editorLastSaved then
            { state := { s with pendingDebounce := none }, updateCalls := [] }
          else
            let result := updateNoteAction outcome
            let s1 := { s with pendingDebounce := none }
            { state := if result.isSuccess then { s1 with editorLastSaved := html } else s1,
              updateCalls := [{ content := some html }] }
  | .editTitle t => { state := { s with currentTitle := t }, updateCalls := [] }
  | .escapeTitle =>
      { state := { s with currentTitle := s.note.title }, updateCalls := [] }
  | .back outcome =>
      if s.userId = "" then { state := s, updateCalls := [] }
      else
        let hasTitleChanged := strTrim s.currentTitle ≠ strTrim s.note.title
        let hasContentChanged := s.currentContent ≠ s.note.content
        if strTrim s.currentTitle = "" then
          { state := { s with isSaving := false }, updateCalls := [] }
        else if hasTitleChanged ∨ hasContentChanged then
          let payload : NotePatch :=
            { title := some (strTrim s.currentTitle), content := some s.currentContent }
          let result := updateNoteAction outcome
          match result.isSuccess, result.data with
          | true, some d =>
              { state := { s with note := d, isSaving := false, navigatedBack := true },
                updateCalls := [payload] }
          | _, _ =>
              { state := { s with isSaving := false }, updateCalls := [payload] }
        else
          { state := { s with isSaving := false, navigatedBack := true },
            updateCalls := [] }

/-- Run the detail controller over a list of events, accumulating every
`updateNoteAction` payload issued along the way. -/
def detailRun (s : DetailState) : List DetailEvent → DetailState × List NotePatch
  | [] => (s, [])
  | e :: es =>
      let out := detailStep s e
      let rest := detailRun out.state es
      (rest.1, out.updateCalls ++ rest.2)

/-! ## Concrete fixtures used by witnesses and counterexamples -/

/-- A sample stored note. -/
def noteA : Note :=
  { id := "n1", userId := "u1", categoryId := "c1", title := "T",
    content := "<p>old</p>", createdAt := 1, updatedAt := 1 }

/-- A sample store holding `noteA` and its category. -/
def sampleStore : Store :=
  { categories := [{ id := "c1", userId := some "u1", name := "Work",
                     color := "#aabbcc", createdAt := 0 }],
    notes := [noteA] }

/-- The detail controller state right after mount
(`page-client.tsx` lines 27–39 and `note-editor.tsx` line 45). -/
def detailInit (userId : String) (n : Note) : DetailState :=
  { userId := userId, note := n, currentTitle := n.title,
    currentContent := n.content, isSaving := false, navigatedBack := false,
    editorLastSaved := n.content, pendingDebounce := none }

/-! ## Theorems -/

/-- C2: for every note id and every partial update payload — including a
payload carrying its own `updatedAt` — `updateNote` stamps the stored
row and the returned row with the fresh server time `now`, which under a
monotone clock is at least the prior stored value; a client-supplied
`updatedAt` is discarded entirely. -/
theorem updateNote_stamps_fresh_updatedAt (st : Store) (id : String)
    (data : NotePatch) (now : Nat)
    (hclock : ∀ n ∈ st.notes, n.updatedAt ≤ now) :
    (∀ m ∈ (updateNote st id data now).1.notes, m.id = id → m.updatedAt = now) ∧
    (∀ m, (updateNote st id data now).2 = some m → m.updatedAt = now ∧
      ∀ n ∈ st.notes, n.updatedAt ≤ m.updatedAt) ∧
    (∀ t, updateNote st id { data with updatedAt := some t } now =
      updateNote st id data now) := by
  refine ⟨?_, ?_, fun t => rfl⟩
  · intro m hm hid
    simp only [updateNote, List.mem_map] at hm
    obtain ⟨n, hn, rfl⟩ := hm
    by_cases h : n.id = id
    · simp [h, applyPatch]
    · simp only [h, if_false] at hid
  · intro m hm
    simp only [updateNote, Option.map_eq_some'] at hm
    obtain ⟨n, hn, hfn⟩ := hm
    subst hfn
    refine ⟨rfl, ?_⟩
    intro n2 hn2
    simpa [applyPatch] using hclock n2 hn2

/-- Witness for C2 at a concrete store and payload: the clock hypothesis
holds at `now = 5`, the updated row and returned row carry `updatedAt =
5 ≥ 1`, and a client-supplied `updatedAt := 99` changes nothing. -/
theorem updateNote_stamps_fresh_updatedAt_witness :
    (∀ n ∈ sampleStore.notes, n.updatedAt ≤ 5) ∧
    ((∀ m ∈ (updateNote sampleStore "n1" { content := some "x" } 5).1.notes,
        m.id = "n1" → m.updatedAt = 5) ∧
      (∀ m, (updateNote sampleStore "n1" { content := some "x" } 5).2 = some m →
        m.updatedAt = 5 ∧ ∀ n ∈ sampleStore.notes, n.updatedAt ≤ m.updatedAt) ∧
      (∀ t, updateNote sampleStore "n1" { content := some "x", updatedAt := some t } 5 =
        updateNote sampleStore "n1" { content := some "x" } 5)) :=
  ⟨by decide,
   updateNote_stamps_fresh_updatedAt sampleStore "n1" { content := some "x" } 5 (by decide)⟩

/-- C3: `getCategoriesForUserAndBase` decomposes as the base categories
(owner `none`) sorted ascending by name, followed by the categories
owned by the user sorted ascending by creation time, so every base
category precedes every user-owned category regardless of timestamps. -/
theorem getCategoriesForUserAndBase_base_first (st : Store) (u : String) :
    ∃ bs us,
      getCategoriesForUserAndBase st u = bs ++ us ∧
      bs.Perm (st.categories.filter (fun c => c.userId = none)) ∧
      us.Perm (st.categories.filter (fun c => c.userId = some u)) ∧
      bs.Sorted (fun a b => a.name ≤ b.name) ∧
      us.Sorted (fun a b => a.createdAt ≤ b.createdAt) ∧
      (∀ c ∈ bs, c.userId = none) ∧ (∀ c ∈ us, c.userId = some u) := by
  haveI h1 : IsTotal Category (fun a b => a.name ≤ b.name) :=
    ⟨fun a b => le_total a.name b.name⟩
  haveI h2 : IsTrans Category (fun a b => a.name ≤ b.name) :=
    ⟨fun _ _ _ hab hbc => le_trans hab hbc⟩
  haveI h3 : IsTotal Category (fun a b => a.createdAt ≤ b.createdAt) :=
    ⟨fun a b => le_total a.createdAt b.createdAt⟩
  haveI h4 : IsTrans Category (fun a b => a.createdAt ≤ b.createdAt) :=
    ⟨fun _ _ _ hab hbc => le_trans hab hbc⟩
  refine ⟨orderedBy (fun a b => a.name ≤ b.name)
      (st.categories.filter (fun c => c.userId = none)),
    orderedBy (fun a b => a.createdAt ≤ b.createdAt)
      (st.categories.filter (fun c => c.userId = some u)),
    rfl, List.perm_insertionSort _ _, List.perm_insertionSort _ _,
    List.sorted_insertionSort _ _, List.sorted_insertionSort _ _, ?_, ?_⟩
  · intro c hc
    have hc2 := (List.perm_insertionSort
      (fun a b : Category => a.name ≤ b.name) _).mem_iff.mp hc
    simpa using (List.mem_filter.mp hc2).2
  · intro c hc
    have hc2 := (List.perm_insertionSort
      (fun a b : Category => a.createdAt ≤ b.createdAt) _).mem_iff.mp hc
    simpa using (List.mem_filter.mp hc2).2

/-- C6: deleting a category cascades to its dependent notes — after
`deleteCategory id`, `getNotesByCategoryId id userId` is empty for every
user, because the store drops every note whose `category_id` references
the deleted row (`onDelete: cascade`). -/
theorem deleteCategory_cascades (st : Store) (id userId : String) :
    getNotesByCategoryId (deleteCategory st id).1 id userId = [] := by
  have h : (deleteCategory st id).1.notes.filter
      (fun n => decide (n.categoryId = id) && decide (n.userId = userId)) = [] := by
    refine List.filter_eq_nil_iff.mpr ?_
    intro a ha
    simp only [deleteCategory] at ha
    have ha2 := List.of_mem_filter ha
    simp only [decide_eq_true_eq] at ha2
    simp only [Bool.and_eq_true, decide_eq_true_eq, not_and]
    intro hcontra
    exact absurd hcontra ha2
  simp [getNotesByCategoryId, orderedBy, h]

/-- A helper: a filter and the filter by the negated predicate partition
the list, so their lengths add up to the original length. -/
theorem length_filter_add_length_filter_not (p : α → Bool) (l : List α) :
    (l.filter p).length + (l.filter (fun a => !p a)).length = l.length := by
  induction l with
  | nil => rfl
  | cons a as ih =>
    by_cases h : p a = true <;>
      simp [List.filter_cons, h, ih] <;> omega

/-- C7: `deleteNotes` on the empty id list returns count `0`, leaves the
store unchanged and never touches storage; on a non-empty list it
touches storage and returns exactly the number of rows removed (the
matching rows, i.e. the difference between the sizes before and after). -/
theorem deleteNotes_empty_noop_nonempty_count (st : Store) (ids : List String) :
    deleteNotes st [] = (st, 0, false) ∧
    (ids ≠ [] →
      (deleteNotes st ids).2.2 = true ∧
      (deleteNotes st ids).2.1 =
        (st.notes.filter (fun n => n.id ∈ ids)).length ∧
      (deleteNotes st ids).2.1 + (deleteNotes st ids).1.notes.length =
        st.notes.length) := by
  refine ⟨rfl, fun hne => ?_⟩
  have hni : ids.isEmpty = false := by
    cases ids with
    | nil => exact absurd rfl hne
    | cons a as => rfl
  refine ⟨by simp [deleteNotes, hni], by simp [deleteNotes, hni], ?_⟩
  simp only [deleteNotes, hni, Bool.false_eq_true, if_false]
  have := length_filter_add_length_filter_not
    (fun n : Note => decide (n.id ∈ ids)) st.notes
  simpa [decide_not] using this

/-- Witness for C7 at a concrete store: deleting `["a", "n1"]` — where
only `"n1"` exists — touches storage and removes exactly one row. -/
theorem deleteNotes_empty_noop_nonempty_count_witness :
    deleteNotes sampleStore [] = (sampleStore, 0, false) ∧
    ((["a", "n1"] : List String) ≠ []) ∧
    ((deleteNotes sampleStore ["a", "n1"]).2.2 = true ∧
      (deleteNotes sampleStore ["a", "n1"]).2.1 =
        (sampleStore.notes.filter (fun n => n.id ∈ (["a", "n1"] : List String))).length ∧
      (deleteNotes sampleStore ["a", "n1"]).2.1 +
        (deleteNotes sampleStore ["a", "n1"]).1.notes.length =
        sampleStore.notes.length) :=
  ⟨(deleteNotes_empty_noop_nonempty_count sampleStore ["a", "n1"]).1,
   by decide,
   (deleteNotes_empty_noop_nonempty_count sampleStore ["a", "n1"]).2 (by decide)⟩

/-- C4: every action-layer function is total on every outcome of its
underlying query — a storage exception is converted into the failure
envelope carrying the exception's message, and a successful query
outcome yields the success envelope with the operation's result
attached (the by-id read actions convert an absent row into a
"not found" failure, and `updateNoteAction`'s internal dereference of a
missing row is itself caught and converted into a failure envelope, so
no action ever lets an exception escape). -/
theorem actions_return_envelopes :
    (∀ e, createNoteAction (.error e) = ⟨false, e, none⟩) ∧
    (∀ n, createNoteAction (.ok n) =
      ⟨true, "Note created successfully", some n⟩) ∧
    (∀ e, getNoteByIdAction (.error e) = ⟨false, e, none⟩) ∧
    (getNoteByIdAction (.ok none) = ⟨false, "Note not found", none⟩) ∧
    (∀ n, getNoteByIdAction (.ok (some n)) =
      ⟨true, "Note retrieved successfully", some n⟩) ∧
    (∀ e, getNotesByUserIdAction (.error e) = ⟨false, e, none⟩) ∧
    (∀ ns, getNotesByUserIdAction (.ok ns) =
      ⟨true, "Notes retrieved successfully", some ns⟩) ∧
    (∀ o, getNotesByCategoryIdAction "" o =
      ⟨false, "User identification is required to fetch notes by category.", none⟩) ∧
    (∀ e, updateNoteAction (.error e) = ⟨false, e, none⟩) ∧
    (updateNoteAction (.ok none) =
      ⟨false, "Cannot read properties of undefined (reading categoryId)", none⟩) ∧
    (∀ n, updateNoteAction (.ok (some n)) =
      ⟨true, "Note updated successfully", some n⟩) ∧
    (∀ e, deleteNoteAction (.error e) = ⟨false, e, none⟩) ∧
    (∀ d, deleteNoteAction (.ok d) = ⟨true, "Note deleted successfully", d⟩) ∧
    (∀ e, deleteNotesAction (.error e) = ⟨false, e, none⟩) ∧
    (∀ c, deleteNotesAction (.ok c) =
      ⟨true, toString c ++ " note(s) deleted successfully", some c⟩) ∧
    (∀ e, createCategoryAction (.error e) = ⟨false, e, none⟩) ∧
    (∀ c, createCategoryAction (.ok c) =
      ⟨true, "Category created successfully", some c⟩) ∧
    (∀ e, getCategoryByIdAction (.error e) = ⟨false, e, none⟩) ∧
    (getCategoryByIdAction (.ok none) = ⟨false, "Category not found", none⟩) ∧
    (∀ c, getCategoryByIdAction (.ok (some c)) =
      ⟨true, "Category retrieved successfully", some c⟩) ∧
    (∀ e, getCategoriesByUserIdAction (.error e) = ⟨false, e, none⟩) ∧
    (∀ cs, getCategoriesByUserIdAction (.ok cs) =
      ⟨true, "Categories retrieved successfully", some cs⟩) ∧
    (∀ e, getCategoriesForUserAndBaseAction (.error e) = ⟨false, e, none⟩) ∧
    (∀ cs, getCategoriesForUserAndBaseAction (.ok cs) =
      ⟨true, "User and base categories retrieved successfully", some cs⟩) ∧
    (∀ e, updateCategoryAction (.error e) = ⟨false, e, none⟩) ∧
    (∀ c, updateCategoryAction (.ok c) =
      ⟨true, "Category updated successfully", c⟩) ∧
    (∀ e, deleteCategoryAction (.error e) = ⟨false, e, none⟩) ∧
    (∀ d, deleteCategoryAction (.ok d) =
      ⟨true, "Category deleted successfully", d⟩) ∧
    (∀ u e, u ≠ "" → getNotesByCategoryIdAction u (.error e) = ⟨false, e, none⟩) ∧
    (∀ u ns, u ≠ "" → getNotesByCategoryIdAction u (.ok ns) =
      ⟨true, "Notes for category retrieved successfully", some ns⟩) := by
  refine ⟨fun _ => rfl, fun _ => rfl, fun _ => rfl, rfl, fun _ => rfl,
    fun _ => rfl, fun _ => rfl, fun _ => rfl, fun _ => rfl, rfl, fun _ => rfl,
    fun _ => rfl, fun _ => rfl, fun _ => rfl, fun _ => rfl, fun _ => rfl,
    fun _ => rfl, fun _ => rfl, rfl, fun _ => rfl, fun _ => rfl, fun _ => rfl,
    fun _ => rfl, fun _ => rfl, fun _ => rfl, fun _ => rfl, fun _ => rfl,
    fun _ => rfl, ?_, ?_⟩
  · intro u e hu
    simp [getNotesByCategoryIdAction, hu]
  · intro u ns hu
    simp [getNotesByCategoryIdAction, hu]

/-- Witness for C4's hypothesised conjuncts: `getNotesByCategoryIdAction`
at the non-empty user id `"u1"` forwards a storage error as a failure
envelope. -/
theorem actions_return_envelopes_witness :
    (("u1" : String) ≠ "") ∧
    getNotesByCategoryIdAction "u1" (.error "boom") = ⟨false, "boom", none⟩ :=
  ⟨by decide,
   actions_return_envelopes.2.2.2.2.2.2.2.2.2.2.2.2.2.2.2.2.2.2.2.2.2.2.2.2.2.2.2.2.1
     "u1" "boom" (by decide)⟩

/-- A helper: with both identifiers present, `createQuickNoteAction`
submits exactly the `quickNoteData` record to storage, whatever the
storage outcome. -/
theorem createQuickNoteAction_submits (categoryId userId : String)
    (title : Option String) (create : InsertNote → Except String Note)
    (hu : userId ≠ "") (hc : categoryId ≠ "") :
    (createQuickNoteAction categoryId userId title create).2 =
      some (quickNoteData categoryId userId title) := by
  simp only [createQuickNoteAction, hu, hc, if_false]
  cases h : create (quickNoteData categoryId userId title) <;> rfl

/-- C5: `createQuickNoteAction` rejects a missing user id and a missing
category id before any storage call, with two distinct error messages,
and otherwise submits a note whose title defaults to "Untitled Note"
when no title is provided and whose content is the empty string. -/
theorem createQuickNoteAction_validates_and_defaults
    (categoryId userId : String) (title : Option String)
    (create : InsertNote → Except String Note) :
    (createQuickNoteAction categoryId "" title create =
      ({ isSuccess := false, message := "User not authenticated." }, none)) ∧
    (userId ≠ "" → createQuickNoteAction "" userId title create =
      ({ isSuccess := false, message := "Category ID is required." }, none)) ∧
    (("User not authenticated." : String) ≠ "Category ID is required.") ∧
    (userId ≠ "" → categoryId ≠ "" →
      (createQuickNoteAction categoryId userId none create).2 =
        some { title := "Untitled Note", content := "",
               categoryId := categoryId, userId := userId }) := by
  refine ⟨rfl, fun hu => ?_, by decide, fun hu hc => ?_⟩
  · simp [createQuickNoteAction, hu]
  · exact (createQuickNoteAction_submits categoryId userId none create hu hc).trans rfl

/-- Witness for C5 at concrete identifiers and a concrete storage
behaviour. -/
theorem createQuickNoteAction_validates_and_defaults_witness :
    (("u1" : String) ≠ "") ∧ (("c1" : String) ≠ "") ∧
    (createQuickNoteAction "c1" "" none (fun _ => .error "down") =
      ({ isSuccess := false, message := "User not authenticated." }, none)) ∧
    (createQuickNoteAction "" "u1" none (fun _ => .error "down") =
      ({ isSuccess := false, message := "Category ID is required." }, none)) ∧
    ((createQuickNoteAction "c1" "u1" none (fun _ => .error "down")).2 =
      some { title := "Untitled Note", content := "",
             categoryId := "c1", userId := "u1" }) :=
  ⟨by decide, by decide,
   (createQuickNoteAction_validates_and_defaults "c1" "u1" none
      (fun _ => .error "down")).1,
   (createQuickNoteAction_validates_and_defaults "c1" "u1" none
      (fun _ => .error "down")).2.1 (by decide),
   (createQuickNoteAction_validates_and_defaults "c1" "u1" none
      (fun _ => .error "down")).2.2.2 (by decide) (by decide)⟩

/-- C9: the title default of `createQuickNoteAction` applies to any
falsy title — with the explicit empty string as title, the submitted
note is titled "Untitled Note", exactly as when the title is omitted. -/
theorem createQuickNoteAction_empty_title_defaults
    (categoryId userId : String)
    (create : InsertNote → Except String Note)
    (hu : userId ≠ "") (hc : categoryId ≠ "") :
    (createQuickNoteAction categoryId userId (some "") create).2 =
      some { title := "Untitled Note", content := "",
             categoryId := categoryId, userId := userId } ∧
    (createQuickNoteAction categoryId userId (some "") create).2 =
      (createQuickNoteAction categoryId userId none create).2 := by
  refine ⟨(createQuickNoteAction_submits categoryId userId (some "") create hu hc).trans rfl, ?_⟩
  exact (createQuickNoteAction_submits categoryId userId (some "") create hu hc).trans
    (createQuickNoteAction_submits categoryId userId none create hu hc).symm

/-- Witness for C9 at concrete identifiers. -/
theorem createQuickNoteAction_empty_title_defaults_witness :
    (("u1" : String) ≠ "") ∧ (("c1" : String) ≠ "") ∧
    ((createQuickNoteAction "c1" "u1" (some "") (fun _ => .error "down")).2 =
      some { title := "Untitled Note", content := "",
             categoryId := "c1", userId := "u1" } ∧
    (createQuickNoteAction "c1" "u1" (some "") (fun _ => .error "down")).2 =
      (createQuickNoteAction "c1" "u1" none (fun _ => .error "down")).2) :=
  ⟨by decide, by decide,
   createQuickNoteAction_empty_title_defaults "c1" "u1"
     (fun _ => .error "down") (by decide) (by decide)⟩

/-- C10: the mutation actions perform no not-found detection.  On a
store holding no note with the given id, `deleteNote` returns
`undefined`, and `deleteNoteAction` wraps it in a success envelope with
message "Note deleted successfully" and no data; `updateNote` likewise
returns `undefined`, and `updateNoteAction` produces a failure envelope
because its dereference of the missing row throws. -/
theorem mutation_actions_no_not_found_detection (st : Store) (id : String)
    (data : NotePatch) (now : Nat)
    (habsent : ∀ n ∈ st.notes, n.id ≠ id) :
    deleteNoteAction (.ok (deleteNote st id).2) =
      ⟨true, "Note deleted successfully", none⟩ ∧
    (updateNoteAction (.ok (updateNote st id data now).2)).isSuccess = false := by
  have hf : st.notes.filter (fun n => decide (n.id = id)) = [] :=
    List.filter_eq_nil_iff.mpr (by
      intro a ha
      simp only [decide_eq_true_eq]
      exact habsent a ha)
  have hd : (deleteNote st id).2 = none := by
    simp [deleteNote, hf]
  have hu2 : (updateNote st id data now).2 = none := by
    simp [updateNote, hf]
  rw [hd, hu2]
  exact ⟨rfl, rfl⟩

/-- Witness for C10: the sample store holds no note with id `"zz"`. -/
theorem mutation_actions_no_not_found_detection_witness :
    (∀ n ∈ sampleStore.notes, n.id ≠ "zz") ∧
    (deleteNoteAction (.ok (deleteNote sampleStore "zz").2) =
      ⟨true, "Note deleted successfully", none⟩ ∧
    (updateNoteAction
      (.ok (updateNote sampleStore "zz" { content := some "x" } 5).2)).isSuccess
        = false) :=
  ⟨by decide,
   mutation_actions_no_not_found_detection sampleStore "zz"
     { content := some "x" } 5 (by decide)⟩

/-- The trace refuting the "written only on Back" discipline: one
content edit followed by the editor's debounce timeout elapsing, with no
back event anywhere. -/
def autosaveTrace : List DetailEvent :=
  [.editContent "<p>new</p>",
   .debounceFire (.ok (some { noteA with content := "<p>new</p>", updatedAt := 2 }))]

/-- C1 counterexample: starting from the freshly mounted detail view of
`noteA`, a content edit followed by the 1.5-second debounce timeout
issues a storage write (`updateNoteAction` with the new content) even
though no event of the trace is the explicit "Back" trigger and the
view never navigates away — the buffer is not written to storage only
on explicit navigation. -/
theorem autosave_writes_without_back :
    (autosaveTrace.all (fun e => !e.isBack)) = true ∧
    (detailRun (detailInit "u1" noteA) autosaveTrace).2 =
      [{ content := some "<p>new</p>" }] ∧
    (detailRun (detailInit "u1" noteA) autosaveTrace).1.navigatedBack = false := by
  exact ⟨rfl, rfl, rfl⟩

/-- C1 (amended): the "Back" handler itself obeys the write discipline —
with an authenticated user and a non-empty trimmed title, it issues zero
update calls and still navigates away when neither title nor content
changed from the last-known-saved values, and exactly one combined
update call (title and content in a single payload) when either
changed; independently of it, the editor issues a debounced content-only
autosave whenever the pending content differs from its last saved
content. -/
theorem back_write_discipline (s : DetailState)
    (outcome : Except String (Option Note))
    (hauth : s.userId ≠ "") (htitle : strTrim s.currentTitle ≠ "") :
    ((strTrim s.currentTitle = strTrim s.note.title ∧
        s.currentContent = s.note.content) →
      (detailStep s (.back outcome)).updateCalls = [] ∧
      (detailStep s (.back outcome)).state.navigatedBack = true) ∧
    (¬ (strTrim s.currentTitle = strTrim s.note.title ∧
        s.currentContent = s.note.content) →
      (detailStep s (.back outcome)).updateCalls =
        [{ title := some (strTrim s.currentTitle),
           content := some s.currentContent }]) ∧
    (∀ html, s.pendingDebounce = some html → html ≠ s.editorLastSaved →
      (detailStep s (.debounceFire outcome)).updateCalls =
        [{ content := some html }]) := by
  refine ⟨fun hsame => ?_, fun hdiff => ?_, fun html hp hne => ?_⟩
  · have hchanged : ¬ (strTrim s.currentTitle ≠ strTrim s.note.title ∨
        s.currentContent ≠ s.note.content) := by
      push_neg
      exact hsame
    simp [detailStep, hauth, htitle, hchanged]
  · have hchanged : strTrim s.currentTitle ≠ strTrim s.note.title ∨
        s.currentContent ≠ s.note.content := by
      rcases not_and_or.mp hdiff with h | h
      · exact Or.inl h
      · exact Or.inr h
    simp only [detailStep, hauth, if_false, htitle, hchanged, if_true]
    cases houtcome : (updateNoteAction outcome).isSuccess <;>
      cases hdata : (updateNoteAction outcome).data <;> rfl
  · simp only [detailStep, hp, hne]
    cases houtcome : (updateNoteAction outcome).isSuccess <;> rfl

/-- Witness for C1's amended theorem: on the freshly mounted detail view
of `noteA` (nothing changed), pressing Back issues no update call and
navigates; after editing the title to "T2", pressing Back issues the
single combined payload. -/
theorem back_write_discipline_witness :
    (("u1" : String) ≠ "") ∧ (strTrim (detailInit "u1" noteA).currentTitle ≠ "") ∧
    ((detailStep (detailInit "u1" noteA) (.back (.ok (some noteA)))).updateCalls = [] ∧
      (detailStep (detailInit "u1" noteA) (.back (.ok (some noteA)))).state.navigatedBack
        = true) ∧
    (detailStep { detailInit "u1" noteA with currentTitle := "T2" }
        (.back (.error "down"))).updateCalls =
      [{ title := some (strTrim "T2"), content := some noteA.content }] :=
  ⟨by decide, by decide,
   (back_write_discipline (detailInit "u1" noteA) (.ok (some noteA))
      (by decide) (by decide)).1 ⟨rfl, rfl⟩,
   (back_write_discipline { detailInit "u1" noteA with currentTitle := "T2" }
      (.error "down") (by decide) (by decide)).2.1 (by decide)⟩

/-- The detail view of `noteA` after the user edits the title buffer to
"Edited" (last-known-saved title remains `noteA.title = "T"`). -/
def editedTitleState : DetailState :=
  { detailInit "u1" noteA with currentTitle := "Edited" }

/-- C8 counterexample: with the title buffer edited to "Edited", the
combined save issued on "Back" fails (storage error), yet the visible
title stays "Edited" — it is not reverted to the last known-good value
"T" — and the view does not navigate. -/
theorem back_failure_no_revert :
    editedTitleState.note.title = "T" ∧
    editedTitleState.currentTitle = "Edited" ∧
    (detailStep editedTitleState
        (.back (.error "Failed to update note. Please try again."))).state.currentTitle
      = "Edited" ∧
    (("Edited" : String) ≠ "T") ∧
    (detailStep editedTitleState
        (.back (.error "Failed to update note. Please try again."))).state.navigatedBack
      = false := by
  exact ⟨rfl, rfl, by decide, by decide, by decide⟩

/-- C8 (amended): when the combined title/content save issued on "Back"
fails, the visible title is not reverted — it keeps the edited buffer
value, the last-known-saved record is untouched and navigation does not
occur; the visible title is reverted to the last known-good value only
by the Escape key while editing the title. -/
theorem back_failure_keeps_edited_title (s : DetailState) (e : String)
    (hauth : s.userId ≠ "") (htitle : strTrim s.currentTitle ≠ "")
    (hch : strTrim s.currentTitle ≠ strTrim s.note.title ∨
      s.currentContent ≠ s.note.content) :
    (detailStep s (.back (.error e))).state.currentTitle = s.currentTitle ∧
    (detailStep s (.back (.error e))).state.note = s.note ∧
    (detailStep s (.back (.error e))).state.navigatedBack = s.navigatedBack ∧
    (detailStep s .escapeTitle).state.currentTitle = s.note.title := by
  refine ⟨?_, ?_, ?_, rfl⟩ <;>
    simp [detailStep, hauth, htitle, hch, updateNoteAction]

/-- Witness for C8's amended theorem at the concrete edited state. -/
theorem back_failure_keeps_edited_title_witness :
    (editedTitleState.userId ≠ "") ∧
    (strTrim editedTitleState.currentTitle ≠ "") ∧
    (strTrim editedTitleState.currentTitle ≠ strTrim editedTitleState.note.title ∨
      editedTitleState.currentContent ≠ editedTitleState.note.content) ∧
    ((detailStep editedTitleState (.back (.error "down"))).state.currentTitle =
        editedTitleState.currentTitle ∧
      (detailStep editedTitleState (.back (.error "down"))).state.note =
        editedTitleState.note ∧
      (detailStep editedTitleState (.back (.error "down"))).state.navigatedBack =
        editedTitleState.navigatedBack ∧
      (detailStep editedTitleState .escapeTitle).state.currentTitle =
        editedTitleState.note.title) :=
  ⟨by decide, by decide, by decide,
   back_failure_keeps_edited_title editedTitleState "down"
     (by decide) (by decide) (by decide)⟩
